import Mathlib

/-!
Shallow embedding of the blueorca drone control repository, for checking the
natural-language specification against the code.

Source files embedded here:
* `mav_server.py` — `MAVLinkServerThread`: a UDP session registry keyed by peer
  address, per-message telemetry parsing into a `DroneStatus` record, and the
  liveness sweep `_check_disconnections`.
* `control.py` — `DroneNode`: the single-vehicle status tracker
  (`_status_tracker`), the command methods `land`, `set_throttle`,
  `fly_to_target`.

Conventions: Python floats are modelled as `ℚ` (all arithmetic in the relevant
code paths is division by constant powers of ten, which is exact); wall-clock
times (`time.time()`) are `ℚ`; Python dicts keyed by peer address are
association lists `List (Nat × _)` with unique keys; a Python function that can
raise is modelled with an explicit `PyResult`.
-/

namespace MavServer

/-- The `DroneStatus` dataclass of `mav_server.py` (telemetry snapshot per
peer).  The display-only string `last_update` (a wall-clock `"%H:%M:%S"`
string) is modelled as the numeric time it was formatted from.  The `addr`
field is omitted: it is the registry key, carried alongside the record. -/
structure DroneStatus where
  sysid : Nat
  compid : Nat
  connected : Bool
  message_count : Nat
  first_message_time : ℚ
  last_heartbeat : ℚ
  last_update : ℚ
  connection_event : String
  armed : Bool
  mode : String
  battery_percent : Int
  battery_voltage : ℚ
  battery_current : ℚ
  gps_fix : Nat
  gps_satellites : Nat
  altitude : ℚ
  latitude : ℚ
  longitude : ℚ
  groundspeed : ℚ
  heading : ℚ
  roll : ℚ
  pitch : ℚ
  yaw : ℚ
  system_status : String
  last_message_type : String
  message_types : List (String × Nat)
  deriving DecidableEq, Repr

/-- Decoded MAVLink messages, restricted to the fields the repository reads.
Integer wire fields are `Int`/`Nat` as in the MAVLink definitions; float wire
fields are `ℚ`. -/
inductive MavMsg where
  | heartbeat (base_mode custom_mode system_status : Nat)
  | sysStatus (voltage_battery current_battery battery_remaining : Int)
  | batteryStatus (voltages0 : Nat) (current_battery battery_remaining : Int)
  | attitude (roll pitch yaw : ℚ)
  | gpsRawInt (lat lon alt : Int) (fix_type satellites_visible : Nat)
  | globalPositionInt (lat lon alt relative_alt vx vy : Int) (hdg : Nat)
  | vfrHud (groundspeed alt : ℚ) (heading : Int)
  deriving DecidableEq, Repr

/-- `msg.get_type()` for each modelled message. -/
def MavMsg.typeName : MavMsg → String
  | .heartbeat .. => "HEARTBEAT"
  | .sysStatus .. => "SYS_STATUS"
  | .batteryStatus .. => "BATTERY_STATUS"
  | .attitude .. => "ATTITUDE"
  | .gpsRawInt .. => "GPS_RAW_INT"
  | .globalPositionInt .. => "GLOBAL_POSITION_INT"
  | .vfrHud .. => "VFR_HUD"

/-- The `mode_map` dict inside `_parse_heartbeat`
(`{0: 'STABILIZE', 2: 'ALT_HOLD', 3: 'AUTO', 4: 'GUIDED', 6: 'RTL', 9: 'LAND'}`). -/
def mode_map (m : Nat) : Option String :=
  match m with
  | 0 => some "STABILIZE"
  | 2 => some "ALT_HOLD"
  | 3 => some "AUTO"
  | 4 => some "GUIDED"
  | 6 => some "RTL"
  | 9 => some "LAND"
  | _ => none

/-- The `status_names` dict inside `_get_system_status_name`. -/
def status_names (c : Nat) : Option String :=
  match c with
  | 0 => some "UNINIT"
  | 1 => some "BOOT"
  | 2 => some "CALIBRATING"
  | 3 => some "STANDBY"
  | 4 => some "ACTIVE"
  | 5 => some "CRITICAL"
  | 6 => some "EMERGENCY"
  | 7 => some "POWEROFF"
  | 8 => some "SHUTDOWN"
  | _ => none

/-- `MAVLinkServerThread._get_system_status_name`:
`status_names.get(status_code, f'UNKNOWN({status_code})')`. -/
def get_system_status_name (c : Nat) : String :=
  (status_names c).getD ("UNKNOWN(" ++ toString c ++ ")")

/-- `MAVLinkServerThread._parse_heartbeat`: armed from `base_mode & 0x80`,
system status through the name table, mode through `mode_map` with the
`f'MODE_{custom_mode}'` fallback. -/
def parse_heartbeat (s : DroneStatus) (base_mode custom_mode system_status : Nat) :
    DroneStatus :=
  { s with
    armed := base_mode &&& 128 != 0
    system_status := get_system_status_name system_status
    mode := (mode_map custom_mode).getD ("MODE_" ++ toString custom_mode) }

/-- `MAVLinkServerThread._parse_sys_status`. -/
def parse_sys_status (s : DroneStatus)
    (voltage_battery current_battery battery_remaining : Int) : DroneStatus :=
  { s with
    battery_percent := battery_remaining
    battery_voltage := (voltage_battery : ℚ) / 1000
    battery_current := if current_battery ≠ -1 then (current_battery : ℚ) / 100 else 0 }

/-- `MAVLinkServerThread._parse_battery_status`. -/
def parse_battery_status (s : DroneStatus) (voltages0 : Nat)
    (current_battery battery_remaining : Int) : DroneStatus :=
  let s1 := if voltages0 ≠ 65535 then
    { s with battery_voltage := (voltages0 : ℚ) / 1000 } else s
  { s1 with
    battery_current := if current_battery ≠ -1 then (current_battery : ℚ) / 100 else 0
    battery_percent := battery_remaining }

/-- `MAVLinkServerThread._parse_attitude`. -/
def parse_attitude (s : DroneStatus) (roll pitch yaw : ℚ) : DroneStatus :=
  { s with roll := roll, pitch := pitch, yaw := yaw }

/-- `MAVLinkServerThread._parse_gps`. -/
def parse_gps (s : DroneStatus) (lat lon alt : Int)
    (fix_type satellites_visible : Nat) : DroneStatus :=
  { s with
    latitude := (lat : ℚ) / 10000000
    longitude := (lon : ℚ) / 10000000
    altitude := (alt : ℚ) / 1000
    gps_fix := fix_type
    gps_satellites := satellites_visible }

/-- `MAVLinkServerThread._parse_global_position`.  The heading field is written
unconditionally as `msg.hdg / 100.0` — there is no sentinel check here.  The
source computes groundspeed as `(vx**2 + vy**2)**0.5 / 100.0` with a float
square root; it is modelled with the integer square root of the (integer)
radicand, exact whenever `vx*vx + vy*vy` is a perfect square (in particular at
every concrete input used below). -/
def parse_global_position (s : DroneStatus) (lat lon alt vx vy : Int) (hdg : Nat) :
    DroneStatus :=
  { s with
    latitude := (lat : ℚ) / 10000000
    longitude := (lon : ℚ) / 10000000
    altitude := (alt : ℚ) / 1000
    groundspeed := (Nat.sqrt (vx * vx + vy * vy).toNat : ℚ) / 100
    heading := (hdg : ℚ) / 100 }

/-- `MAVLinkServerThread._parse_vfr_hud`. -/
def parse_vfr_hud (s : DroneStatus) (groundspeed alt : ℚ) (heading : Int) :
    DroneStatus :=
  { s with groundspeed := groundspeed, altitude := alt, heading := (heading : ℚ) }

/-- Increment the per-type message counter dict (`status.message_types`). -/
def bumpType (l : List (String × Nat)) (t : String) : List (String × Nat) :=
  if l.any (fun p => p.1 == t) then
    l.map (fun p => if p.1 == t then (p.1, p.2 + 1) else p)
  else
    l ++ [(t, 1)]

/-- `MAVLinkServerThread._update_drone_status`: bookkeeping fields, then the
per-type parse dispatch. -/
def update_drone_status (s : DroneStatus) (now : ℚ) (m : MavMsg) : DroneStatus :=
  let s := { s with
    message_count := s.message_count + 1
    last_heartbeat := now
    last_update := now
    last_message_type := m.typeName
    message_types := bumpType s.message_types m.typeName }
  match m with
  | .heartbeat b c st => parse_heartbeat s b c st
  | .sysStatus v c br => parse_sys_status s v c br
  | .batteryStatus v0 c br => parse_battery_status s v0 c br
  | .attitude r p y => parse_attitude s r p y
  | .gpsRawInt lat lon alt f sat => parse_gps s lat lon alt f sat
  | .globalPositionInt lat lon alt _ vx vy hdg => parse_global_position s lat lon alt vx vy hdg
  | .vfrHud gs alt hd => parse_vfr_hud s gs alt hd

/-- The fresh record built by `MAVLinkServerThread._drone_connected`: every
field not named in the constructor call keeps its dataclass default. -/
def freshStatus (sysid compid : Nat) (now : ℚ) (firstMsgType : String) : DroneStatus :=
  { sysid := sysid
    compid := compid
    connected := true
    message_count := 0
    first_message_time := now
    last_heartbeat := now
    last_update := now
    connection_event := "CONNECTED"
    armed := false
    mode := "UNKNOWN"
    battery_percent := 0
    battery_voltage := 0
    battery_current := 0
    gps_fix := 0
    gps_satellites := 0
    altitude := 0
    latitude := 0
    longitude := 0
    groundspeed := 0
    heading := 0
    roll := 0
    pitch := 0
    yaw := 0
    system_status := "UNKNOWN"
    last_message_type := firstMsgType
    message_types := [] }

/-- Qt signals emitted by the server thread. -/
inductive Event where
  | droneConnected (addr sysid compid : Nat)
  | droneDisconnected (addr sysid : Nat)
  | messageReceived (addr : Nat)
  deriving DecidableEq, Repr

/-- Association-list lookup, modelling a Python dict read. -/
def lookupA {α : Type} : List (Nat × α) → Nat → Option α
  | [], _ => none
  | p :: rest, k => if p.1 = k then some p.2 else lookupA rest k

/-- The registry-level behaviour of `MAVLinkServerThread._handle_packet` for
one complete parsed message: a new peer address goes through
`_drone_connected` (which does not apply the message's telemetry payload),
an existing one through `_update_drone_status`. -/
def handle_message (drones : List (Nat × DroneStatus)) (addr : Nat) (now : ℚ)
    (sysid compid : Nat) (m : MavMsg) : List (Nat × DroneStatus) × List Event :=
  match lookupA drones addr with
  | none =>
      (drones ++ [(addr, freshStatus sysid compid now m.typeName)],
       [Event.droneConnected addr sysid compid, Event.messageReceived addr])
  | some st =>
      let st' := update_drone_status st now m
      (drones.map (fun p => if p.1 == addr then (p.1, st') else p),
       [Event.messageReceived addr])

/-- `now - status.last_heartbeat > self.timeout`, the silence test of
`_check_disconnections`. -/
def timedOut (now timeout : ℚ) (s : DroneStatus) : Bool :=
  decide (now - s.last_heartbeat > timeout)

/-- One record popped by the sweep, paired with the emitted
`drone_disconnected` signal data. -/
structure DisconnectRecord where
  addr : Nat
  status : DroneStatus
  deriving DecidableEq, Repr

/-- `MAVLinkServerThread._check_disconnections`: every session silent for
longer than the timeout is *popped* from `self.drones` (its parser is also
deleted); the popped record is marked `connected=False`,
`connection_event="DISCONNECTED"`, its `last_update` refreshed, and one
`drone_disconnected` signal is emitted for it. -/
def check_disconnections (drones : List (Nat × DroneStatus)) (now timeout : ℚ) :
    List (Nat × DroneStatus) × List DisconnectRecord :=
  (drones.filter (fun p => !(timedOut now timeout p.2)),
   (drones.filter (fun p => timedOut now timeout p.2)).map
     (fun p => ⟨p.1, { p.2 with
        connected := false
        connection_event := "DISCONNECTED"
        last_update := now }⟩))

end MavServer

namespace Control

/-- The value of the `'battery'` entry in `DroneNode.current_status`
(`{'percentage': ..., 'voltage': ...}`, raw wire values). -/
structure BatteryDict where
  percentage : Int
  voltage : Int
  deriving DecidableEq, Repr

/-- The value of the `'gps'` entry in `DroneNode.current_status`. -/
structure GpsDict where
  fix_type : Nat
  satellites_visible : Nat
  deriving DecidableEq, Repr

/-- The `DroneNode.current_status` dict of `control.py`: entries initialised
to `None` are `Option` fields; `armed` starts `False` and `altitude` starts
`0`. -/
structure TrackerStatus where
  armed : Bool
  mode : Option String
  altitude : ℚ
  battery : Option BatteryDict
  gps : Option GpsDict
  heading : Option ℚ
  groundspeed : Option ℚ
  position : Option (ℚ × ℚ)
  system_status : Option String
  deriving DecidableEq, Repr

/-- The initial `current_status` dict built in `DroneNode.__init__`. -/
def initTrackerStatus : TrackerStatus :=
  { armed := false
    mode := none
    altitude := 0
    battery := none
    gps := none
    heading := none
    groundspeed := none
    position := none
    system_status := none }

/-- `dialect.enums['MAV_STATE'][code].name`: the MAV_STATE enum of the
pymavlink dialect (an external library table).  Out-of-range codes raise
`KeyError` in the source, modelled as `none`. -/
def mav_state_name (c : Nat) : Option String :=
  match c with
  | 0 => some "MAV_STATE_UNINIT"
  | 1 => some "MAV_STATE_BOOT"
  | 2 => some "MAV_STATE_CALIBRATING"
  | 3 => some "MAV_STATE_STANDBY"
  | 4 => some "MAV_STATE_ACTIVE"
  | 5 => some "MAV_STATE_CRITICAL"
  | 6 => some "MAV_STATE_EMERGENCY"
  | 7 => some "MAV_STATE_POWEROFF"
  | 8 => some "MAV_STATE_FLIGHT_TERMINATION"
  | _ => none

/-- `mavutil.mode_mapping_acm`: pymavlink's ArduCopter mode-number → name
table (an external library constant). -/
def mode_mapping_acm (m : Nat) : Option String :=
  match m with
  | 0 => some "STABILIZE"
  | 1 => some "ACRO"
  | 2 => some "ALT_HOLD"
  | 3 => some "AUTO"
  | 4 => some "GUIDED"
  | 5 => some "LOITER"
  | 6 => some "RTL"
  | 7 => some "CIRCLE"
  | 8 => some "POSITION"
  | 9 => some "LAND"
  | 10 => some "OF_LOITER"
  | 11 => some "DRIFT"
  | 13 => some "SPORT"
  | 14 => some "FLIP"
  | 15 => some "AUTOTUNE"
  | 16 => some "POSHOLD"
  | 17 => some "BRAKE"
  | 18 => some "THROW"
  | 19 => some "AVOID_ADSB"
  | 20 => some "GUIDED_NOGPS"
  | 21 => some "SMART_RTL"
  | 22 => some "FLOWHOLD"
  | 23 => some "FOLLOW"
  | 24 => some "ZIGZAG"
  | 25 => some "SYSTEMID"
  | 26 => some "AUTOROTATE"
  | 27 => some "AUTO_RTL"
  | _ => none

/-- One loop iteration of `DroneNode._status_tracker` applied to a received
message.  In the HEARTBEAT branch the `armed` write happens before the
MAV_STATE enum lookup; an out-of-range status code raises `KeyError`, caught
by the loop's `except` handler, so the earlier `armed` write is kept and the
remaining writes of that branch are skipped.  A GLOBAL_POSITION_INT heading
is stored only when `msg.hdg != 0 and msg.hdg != 65535`, divided by 100 when
the raw value exceeds 360. -/
def trackerStep (ts : TrackerStatus) (m : MavServer.MavMsg) : TrackerStatus :=
  match m with
  | .heartbeat base custom _sysc =>
      let s1 := { ts with armed := base &&& 128 != 0 }
      match mav_state_name _sysc with
      | none => s1
      | some nm =>
          let s2 := { s1 with system_status := some nm }
          match mode_mapping_acm custom with
          | some mstr => { s2 with mode := some mstr }
          | none => s2
  | .sysStatus voltage_battery _current battery_remaining =>
      { ts with battery := some { percentage := battery_remaining, voltage := voltage_battery } }
  | .batteryStatus _ _ _ => ts
  | .attitude _ _ _ => ts
  | .gpsRawInt _ _ _ fix sats =>
      { ts with gps := some { fix_type := fix, satellites_visible := sats } }
  | .globalPositionInt lat lon _alt relAlt _vx _vy hdg =>
      let s1 := { ts with
        altitude := (relAlt : ℚ) / 1000
        position := some ((lat : ℚ) / 10000000, (lon : ℚ) / 10000000) }
      if hdg ≠ 0 ∧ hdg ≠ 65535 then
        { s1 with heading := some (if 360 < hdg then (hdg : ℚ) / 100 else (hdg : ℚ)) }
      else s1
  | .vfrHud gs _alt hd =>
      { ts with groundspeed := some gs, heading := some ((hd : ℚ)) }

/-- Result of a Python call that either returns or raises. -/
inductive PyResult (α : Type) where
  | ok (a : α)
  | exn (name : String)
  deriving DecidableEq, Repr

/-- The `FlightMode` enum of `control.py`. -/
inductive FlightMode where
  | stabilize | guided | auto | loiter | rtl | landMode | brake | drift
  | sport | flip | autotune | poshold | throw | avoid_adsb | guided_nogps | circle
  deriving DecidableEq, Repr

/-- What `DroneNode.get_current_mode` hands back to `fly_to_target`: a
`FlightMode` enum value, a raw unrecognised mode string, or `None` (no
heartbeat and no previously known mode). -/
inductive ModeObs where
  | known (m : FlightMode)
  | raw (s : String)
  | noneMode
  deriving DecidableEq, Repr

/-- `DroneNode.fly_to_target`, control-flow embedding of everything after the
argument list.  `convOk` is whether the `int(lat * 1e7)` conversions succeed
(the only code covered by the `try`: on failure the function returns `False`).
After sending, the source sleeps 0.5 s, reads `get_current_mode()`
(`modeAfter`), and sets the local variable `success = True` only inside the
`if current_mode == FlightMode.GUIDED:` branch; the `else` branch only logs.
The final `if success:` therefore reads an unassigned local whenever the mode
was not GUIDED, which raises `UnboundLocalError`. -/
def fly_to_target (convOk : Bool) (modeAfter : ModeObs) : PyResult Bool :=
  if !convOk then .ok false
  else
    let success : Option Bool :=
      if modeAfter = ModeObs.known FlightMode.guided then some true else none
    match success with
    | some b => .ok b
    | none => .exn "UnboundLocalError"

/-- A `COMMAND_ACK` message as read by `DroneNode.land`. -/
structure CommandAck where
  command : Nat
  result : Nat
  deriving DecidableEq, Repr

/-- `dialect.MAV_CMD_NAV_LAND`. -/
def MAV_CMD_NAV_LAND : Nat := 21

/-- `dialect.MAV_RESULT_ACCEPTED`. -/
def MAV_RESULT_ACCEPTED : Nat := 0

/-- `recv_match(type='COMMAND_ACK', ..., timeout=1.0)` — the per-attempt ack
wait of `DroneNode.land`. -/
def LAND_ACK_TIMEOUT : ℚ := 1

/-- The `retry_delay=2` default of `DroneNode.land`. -/
def LAND_RETRY_DELAY : ℚ := 2

/-- The acceptance test of one `land` attempt: Python takes the success path
iff an ack arrived, its `command` is `MAV_CMD_NAV_LAND` and its `result` is
`MAV_RESULT_ACCEPTED`; every other case (no ack, foreign ack, rejecting ack)
falls through to the retry logic. -/
def ackAccepted : Option CommandAck → Bool
  | some a => a.command == MAV_CMD_NAV_LAND && a.result == MAV_RESULT_ACCEPTED
  | none => false

/-- The `while attempts < max_retries` loop of `DroneNode.land`.  `fuel` is
`max_retries - attempts`; `t` the current time; `sends` the transmission
times so far.  `acks a` is the ack observed on attempt `a` (numbered from 0),
`wait a` the time `recv_match` consumed on that attempt (its ack-arrival
delay, or the full 1.0 s timeout when no ack came).  Between failed attempts
the source sleeps `retry_delay`; after the final attempt it returns `False`
with no sleep. -/
def landAux (acks : Nat → Option CommandAck) (wait : Nat → ℚ) (retry_delay : ℚ) :
    Nat → Nat → ℚ → List ℚ → List ℚ × Bool
  | 0, _, _, sends => (sends, false)
  | fuel + 1, a, t, sends =>
      let sends' := sends ++ [t]
      let tAfter := t + wait a
      if ackAccepted (acks a) then (sends', true)
      else if fuel = 0 then (sends', false)
      else landAux acks wait retry_delay fuel (a + 1) (tAfter + retry_delay) sends'

/-- `DroneNode.land` (given a live connection): returns the transmission-time
trace and the boolean result. -/
def land (acks : Nat → Option CommandAck) (wait : Nat → ℚ)
    (max_retries : Nat) (retry_delay : ℚ) : List ℚ × Bool :=
  landAux acks wait retry_delay max_retries 0 0 []

/-- `DroneNode.set_throttle`: `hasConn` is `bool(self.drone)` and `armed` is
`self.is_armed`.  Returns the transmitted RC-override PWM value (if any) and
the boolean result. -/
def set_throttle (hasConn armed : Bool) (throttle_value : Int) : Option Int × Bool :=
  if !hasConn || !armed then (none, false)
  else if 0 ≤ throttle_value ∧ throttle_value ≤ 100 then
    (some (1000 + throttle_value * 10), true)
  else (none, false)

end Control

/-! ## Helper lemmas about the association-list registry -/

theorem lookupA_eq_none_iff {α : Type} (l : List (Nat × α)) (k : Nat) :
    MavServer.lookupA l k = none ↔ ∀ p ∈ l, p.1 ≠ k := by
  induction l with
  | nil => simp [MavServer.lookupA]
  | cons x xs ih =>
    by_cases hx : x.1 = k <;> simp [MavServer.lookupA, hx, ih]

theorem lookupA_some_mem {α : Type} {l : List (Nat × α)} {k : Nat} {v : α}
    (h : MavServer.lookupA l k = some v) : (k, v) ∈ l := by
  induction l with
  | nil => simp [MavServer.lookupA] at h
  | cons x xs ih =>
    obtain ⟨a, b⟩ := x
    by_cases hx : a = k
    · subst hx
      simp [MavServer.lookupA] at h
      subst h
      exact List.mem_cons_self _ _
    · simp [MavServer.lookupA, hx] at h
      exact List.mem_cons_of_mem _ (ih h)

theorem lookupA_append_right {α : Type} {l : List (Nat × α)} {k : Nat}
    (h : MavServer.lookupA l k = none) (v : α) :
    MavServer.lookupA (l ++ [(k, v)]) k = some v := by
  induction l with
  | nil => simp [MavServer.lookupA]
  | cons x xs ih =>
    by_cases hx : x.1 = k
    · simp [MavServer.lookupA, hx] at h
    · simp only [MavServer.lookupA, hx, List.cons_append, if_false] at h ⊢
      exact ih h

theorem lookupA_map_update {α : Type} {l : List (Nat × α)} {k : Nat} {v : α}
    (h : MavServer.lookupA l k = some v) (w : α) :
    MavServer.lookupA (l.map (fun p => if p.1 == k then (p.1, w) else p)) k = some w := by
  induction l with
  | nil => simp [MavServer.lookupA] at h
  | cons x xs ih =>
    by_cases hx : x.1 = k
    · simp [MavServer.lookupA, hx]
    · simp [MavServer.lookupA, hx] at h ⊢
      simpa using ih h

theorem eq_of_mem_nodupkeys {α : Type} {l : List (Nat × α)}
    (hnd : (l.map Prod.fst).Nodup)
    {p q : Nat × α} (hp : p ∈ l) (hq : q ∈ l) (h : p.1 = q.1) : p = q := by
  induction l with
  | nil => cases hp
  | cons x xs ih =>
    rw [List.map_cons, List.nodup_cons] at hnd
    obtain ⟨hx, hnd'⟩ := hnd
    rcases List.mem_cons.mp hp with hp1 | hp1 <;> rcases List.mem_cons.mp hq with hq1 | hq1
    · rw [hp1, hq1]
    · exfalso
      apply hx
      rw [hp1] at h
      rw [h]
      exact List.mem_map_of_mem Prod.fst hq1
    · exfalso
      apply hx
      rw [hq1] at h
      rw [← h]
      exact List.mem_map_of_mem Prod.fst hp1
    · exact ih hnd' hp1 hq1

/-! ## Claim theorems -/

/-- Claim C3 (code_bug evidence): `DroneNode.fly_to_target` only returns a
boolean when the mode snapshot after the settle delay is GUIDED (result
`True`) or when coordinate conversion fails (`False`); in every other case the
final `if success:` reads the never-assigned local `success` and the call
raises `UnboundLocalError` instead of returning `False`. -/
theorem fly_to_target_raises_when_not_guided :
    Control.fly_to_target true (Control.ModeObs.known Control.FlightMode.rtl)
      = Control.PyResult.exn "UnboundLocalError" ∧
    Control.fly_to_target true Control.ModeObs.noneMode
      = Control.PyResult.exn "UnboundLocalError" ∧
    Control.fly_to_target true (Control.ModeObs.known Control.FlightMode.guided)
      = Control.PyResult.ok true ∧
    Control.fly_to_target false (Control.ModeObs.known Control.FlightMode.guided)
      = Control.PyResult.ok false := by
  refine ⟨rfl, rfl, rfl, rfl⟩

/-- Claim C7: `DroneNode.set_throttle` on a live connection transmits the PWM
value `1000 + 10·v` and reports success exactly when the armed flag is set and
`0 ≤ v ≤ 100`; in every other case it transmits nothing and reports failure. -/
theorem set_throttle_spec (armed : Bool) (v : Int) :
    Control.set_throttle true armed v =
      if armed = true ∧ 0 ≤ v ∧ v ≤ 100 then (some (1000 + 10 * v), true)
      else (none, false) := by
  cases armed
  · simp [Control.set_throttle]
  · by_cases hv : 0 ≤ v ∧ v ≤ 100
    · simp [Control.set_throttle, hv]
      ring
    · simp [Control.set_throttle, hv]

/-- Claim C2 (counterexample): in `MAVLinkServerThread._parse_global_position`
the heading field is written as `hdg / 100.0` with no sentinel check, so a
GLOBAL_POSITION_INT carrying the "unknown" sentinel 65535 *does* overwrite a
previously valid heading of 90° with 655.35°. -/
theorem heading_sentinel_overwrites_in_server_cex :
    (MavServer.parse_global_position
      { MavServer.freshStatus 1 1 0 "HEARTBEAT" with heading := 90 }
      0 0 0 0 0 65535).heading = 13107 / 20 ∧
    (MavServer.parse_global_position
      { MavServer.freshStatus 1 1 0 "HEARTBEAT" with heading := 90 }
      0 0 0 0 0 65535).heading ≠ 90 := by
  constructor
  · norm_num [MavServer.parse_global_position]
  · norm_num [MavServer.parse_global_position]

/-- Claim C2 (amended): the sentinel-rejection holds in the single-vehicle
tracker of `control.py` — a GLOBAL_POSITION_INT with `hdg = 65535` leaves the
tracker's heading entry unchanged — while the multi-peer server of
`mav_server.py` writes the raw `hdg / 100` unconditionally, storing 655.35 for
the sentinel. -/
theorem heading_sentinel_amended (ts : Control.TrackerStatus)
    (s : MavServer.DroneStatus) (lat lon alt relAlt vx vy : Int) :
    (Control.trackerStep ts
      (MavServer.MavMsg.globalPositionInt lat lon alt relAlt vx vy 65535)).heading
      = ts.heading ∧
    (MavServer.parse_global_position s lat lon alt vx vy 65535).heading
      = 13107 / 20 := by
  constructor
  · simp [Control.trackerStep]
  · norm_num [MavServer.parse_global_position]

/-- Claim C10: the tracker of `control.py` treats a raw heading of 0 in a
GLOBAL_POSITION_INT exactly like the 65535 sentinel — the heading entry is
left unchanged — even though the rest of the message (altitude, position) is
applied. -/
theorem heading_zero_rejected_in_tracker (ts : Control.TrackerStatus)
    (lat lon alt relAlt vx vy : Int) :
    (Control.trackerStep ts
      (MavServer.MavMsg.globalPositionInt lat lon alt relAlt vx vy 0)).heading
      = ts.heading ∧
    (Control.trackerStep ts
      (MavServer.MavMsg.globalPositionInt lat lon alt relAlt vx vy 0)).position
      = some ((lat : ℚ) / 10000000, (lon : ℚ) / 10000000) ∧
    (Control.trackerStep ts
      (MavServer.MavMsg.globalPositionInt lat lon alt relAlt vx vy 0)).altitude
      = (relAlt : ℚ) / 1000 := by
  refine ⟨?_, ?_, ?_⟩ <;> simp [Control.trackerStep]

/-- Claim C5 (counterexample): a SYS_STATUS whose `battery_remaining` carries
the "not reported" sentinel −1 is stored as the raw −1 — the server snapshot's
`battery_percent` and the tracker's battery percentage both keep the sentinel,
not null; the server additionally maps the `current_battery` sentinel to a
plain 0.0. -/
theorem battery_sentinel_stored_raw_cex :
    (MavServer.parse_sys_status (MavServer.freshStatus 1 1 0 "HEARTBEAT")
      12587 (-1) (-1)).battery_percent = -1 ∧
    (MavServer.parse_sys_status (MavServer.freshStatus 1 1 0 "HEARTBEAT")
      12587 (-1) (-1)).battery_current = 0 ∧
    (Control.trackerStep Control.initTrackerStatus
      (MavServer.MavMsg.sysStatus 12587 (-1) (-1))).battery
      = some { percentage := -1, voltage := 12587 } := by
  refine ⟨rfl, ?_, rfl⟩
  simp [MavServer.parse_sys_status, MavServer.freshStatus]

/-- Claim C5 (amended): SYS_STATUS battery fields are stored raw, sentinels
included — `battery_remaining` passes through unchanged (−1 stays −1),
`voltage_battery` is divided by 1000 whatever its value; only
`current_battery = −1` is special-cased by the server, to 0.0 rather than
null; the tracker stores the raw pair. -/
theorem battery_sentinel_amended (s : MavServer.DroneStatus)
    (ts : Control.TrackerStatus) (v c br : Int) :
    (MavServer.parse_sys_status s v c br).battery_percent = br ∧
    (MavServer.parse_sys_status s v c br).battery_voltage = (v : ℚ) / 1000 ∧
    (MavServer.parse_sys_status s v (-1) br).battery_current = 0 ∧
    (c ≠ -1 → (MavServer.parse_sys_status s v c br).battery_current = (c : ℚ) / 100) ∧
    (Control.trackerStep ts (MavServer.MavMsg.sysStatus v c br)).battery
      = some { percentage := br, voltage := v } := by
  refine ⟨rfl, rfl, ?_, ?_, rfl⟩
  · simp [MavServer.parse_sys_status]
  · intro hc
    simp [MavServer.parse_sys_status, hc]

/-- Claim C8: in `MAVLinkServerThread._parse_heartbeat`, armed is the 0x80
bit of `base_mode`; mode code 4 maps to "GUIDED" (so an armed-flag heartbeat
with code 4 yields armed and GUIDED); a mode number outside the table renders
as the raw fallback `MODE_<n>`; and a system-status code outside the table
renders as `UNKNOWN(<code>)`. -/
theorem heartbeat_parse_spec (s : MavServer.DroneStatus) (base custom sysc : Nat)
    (hb : base &&& 128 ≠ 0)
    (hm : MavServer.mode_map custom = none)
    (hs : MavServer.status_names sysc = none) :
    ((MavServer.parse_heartbeat s base 4 sysc).armed = true ∧
     (MavServer.parse_heartbeat s base 4 sysc).mode = "GUIDED") ∧
    (MavServer.parse_heartbeat s base custom sysc).mode
      = "MODE_" ++ toString custom ∧
    (MavServer.parse_heartbeat s base custom sysc).system_status
      = "UNKNOWN(" ++ toString sysc ++ ")" ∧
    (∀ b c sc : Nat,
      (MavServer.parse_heartbeat s b c sc).armed = (b &&& 128 != 0)) := by
  refine ⟨⟨?_, ?_⟩, ?_, ?_, fun b c sc => rfl⟩
  · simp [MavServer.parse_heartbeat, bne_iff_ne, hb]
  · simp [MavServer.parse_heartbeat, MavServer.mode_map]
  · simp [MavServer.parse_heartbeat, hm]
  · simp [MavServer.parse_heartbeat, MavServer.get_system_status_name, hs]

/-- Witness for C8 at `base_mode = 128` (armed flag set), unmapped mode code 5
and system-status code 9. -/
theorem heartbeat_parse_spec_witness :
    ((MavServer.parse_heartbeat (MavServer.freshStatus 1 1 0 "HEARTBEAT")
        128 4 9).armed = true ∧
     (MavServer.parse_heartbeat (MavServer.freshStatus 1 1 0 "HEARTBEAT")
        128 4 9).mode = "GUIDED") ∧
    (MavServer.parse_heartbeat (MavServer.freshStatus 1 1 0 "HEARTBEAT")
        128 5 9).mode = "MODE_" ++ toString 5 ∧
    (MavServer.parse_heartbeat (MavServer.freshStatus 1 1 0 "HEARTBEAT")
        128 5 9).system_status = "UNKNOWN(" ++ toString 9 ++ ")" ∧
    (∀ b c sc : Nat,
      (MavServer.parse_heartbeat (MavServer.freshStatus 1 1 0 "HEARTBEAT")
        b c sc).armed = (b &&& 128 != 0)) := by
  have h := heartbeat_parse_spec (MavServer.freshStatus 1 1 0 "HEARTBEAT") 128 5 9
    (by decide) (by decide) (by decide)
  exact ⟨heartbeat_parse_spec (MavServer.freshStatus 1 1 0 "HEARTBEAT") 128 5 9
    (by decide) (by decide) (by decide) |>.1, h.2.1, h.2.2.1, h.2.2.2⟩

/-- Claim C9: the first complete message parsed from an unknown peer goes
through `_drone_connected`: the session is created `connected=true`, a
CONNECTED event (followed by a message-received notification) is emitted, but
the message's telemetry payload is *not* applied — every telemetry field of
the stored record keeps its dataclass default, and `message_count` stays 0;
only from the second message on does `_update_drone_status` run. -/
theorem first_message_keeps_defaults (drones : List (Nat × MavServer.DroneStatus))
    (addr : Nat) (now : ℚ) (sysid compid : Nat) (m : MavServer.MavMsg)
    (h : MavServer.lookupA drones addr = none) :
    MavServer.lookupA (MavServer.handle_message drones addr now sysid compid m).1 addr
      = some (MavServer.freshStatus sysid compid now m.typeName) ∧
    (MavServer.handle_message drones addr now sysid compid m).2
      = [MavServer.Event.droneConnected addr sysid compid,
         MavServer.Event.messageReceived addr] ∧
    ((MavServer.freshStatus sysid compid now m.typeName).connected = true ∧
     (MavServer.freshStatus sysid compid now m.typeName).armed = false ∧
     (MavServer.freshStatus sysid compid now m.typeName).mode = "UNKNOWN" ∧
     (MavServer.freshStatus sysid compid now m.typeName).system_status = "UNKNOWN" ∧
     (MavServer.freshStatus sysid compid now m.typeName).battery_percent = 0 ∧
     (MavServer.freshStatus sysid compid now m.typeName).battery_voltage = 0 ∧
     (MavServer.freshStatus sysid compid now m.typeName).battery_current = 0 ∧
     (MavServer.freshStatus sysid compid now m.typeName).gps_fix = 0 ∧
     (MavServer.freshStatus sysid compid now m.typeName).gps_satellites = 0 ∧
     (MavServer.freshStatus sysid compid now m.typeName).altitude = 0 ∧
     (MavServer.freshStatus sysid compid now m.typeName).latitude = 0 ∧
     (MavServer.freshStatus sysid compid now m.typeName).longitude = 0 ∧
     (MavServer.freshStatus sysid compid now m.typeName).groundspeed = 0 ∧
     (MavServer.freshStatus sysid compid now m.typeName).heading = 0 ∧
     (MavServer.freshStatus sysid compid now m.typeName).roll = 0 ∧
     (MavServer.freshStatus sysid compid now m.typeName).pitch = 0 ∧
     (MavServer.freshStatus sysid compid now m.typeName).yaw = 0 ∧
     (MavServer.freshStatus sysid compid now m.typeName).message_count = 0) ∧
    (∀ (now2 : ℚ) (m2 : MavServer.MavMsg),
      MavServer.lookupA
        (MavServer.handle_message
          (MavServer.handle_message drones addr now sysid compid m).1
          addr now2 sysid compid m2).1 addr
        = some (MavServer.update_drone_status
            (MavServer.freshStatus sysid compid now m.typeName) now2 m2)) := by
  have hreg : (MavServer.handle_message drones addr now sysid compid m).1
      = drones ++ [(addr, MavServer.freshStatus sysid compid now m.typeName)] := by
    simp [MavServer.handle_message, h]
  have hlook : MavServer.lookupA
      (MavServer.handle_message drones addr now sysid compid m).1 addr
      = some (MavServer.freshStatus sysid compid now m.typeName) := by
    rw [hreg]
    exact lookupA_append_right h _
  refine ⟨hlook, ?_, ?_, ?_⟩
  · simp [MavServer.handle_message, h]
  · exact ⟨rfl, rfl, rfl, rfl, rfl, rfl, rfl, rfl, rfl, rfl, rfl, rfl, rfl, rfl,
      rfl, rfl, rfl, rfl⟩
  · intro now2 m2
    set reg1 := (MavServer.handle_message drones addr now sysid compid m).1 with hreg1
    simp only [MavServer.handle_message, hlook]
    exact lookupA_map_update hlook _

/-- Witness for C9: empty registry, armed GUIDED heartbeat as first message —
the stored record still shows the defaults, and a second SYS_STATUS message
is applied through `_update_drone_status`. -/
theorem first_message_keeps_defaults_witness :
    MavServer.lookupA
      (MavServer.handle_message [] 0 0 7 1 (MavServer.MavMsg.heartbeat 128 4 4)).1 0
      = some (MavServer.freshStatus 7 1 0 "HEARTBEAT") ∧
    (MavServer.freshStatus 7 1 0 "HEARTBEAT").armed = false ∧
    (MavServer.freshStatus 7 1 0 "HEARTBEAT").mode = "UNKNOWN" ∧
    MavServer.lookupA
      (MavServer.handle_message
        (MavServer.handle_message [] 0 0 7 1 (MavServer.MavMsg.heartbeat 128 4 4)).1
        0 1 7 1 (MavServer.MavMsg.sysStatus 12587 (-1) 55)).1 0
      = some (MavServer.update_drone_status (MavServer.freshStatus 7 1 0 "HEARTBEAT")
          1 (MavServer.MavMsg.sysStatus 12587 (-1) 55)) := by
  have h := first_message_keeps_defaults [] 0 0 7 1
    (MavServer.MavMsg.heartbeat 128 4 4) rfl
  exact ⟨h.1, h.2.2.1.2.1, h.2.2.1.2.2.1, h.2.2.2 1 (MavServer.MavMsg.sysStatus 12587 (-1) 55)⟩

theorem landAux_succ (acks : Nat → Option Control.CommandAck) (wait : Nat → ℚ)
    (rd : ℚ) (fuel a : Nat) (t : ℚ) (sends : List ℚ) :
    Control.landAux acks wait rd (fuel + 1) a t sends =
      if Control.ackAccepted (acks a) then (sends ++ [t], true)
      else if fuel = 0 then (sends ++ [t], false)
      else Control.landAux acks wait rd fuel (a + 1) (t + wait a + rd) (sends ++ [t]) :=
  rfl

theorem landAux_step (acks : Nat → Option Control.CommandAck) (wait : Nat → ℚ)
    (rd : ℚ) (fuel a : Nat) (t : ℚ) (sends : List ℚ)
    (ha : Control.ackAccepted (acks a) = false) :
    Control.landAux acks wait rd (fuel + 1 + 1) a t sends =
      Control.landAux acks wait rd (fuel + 1) (a + 1) (t + wait a + rd) (sends ++ [t]) := by
  rw [landAux_succ]
  simp [ha]

/-- Claim C6: `DroneNode.land` with `max_retries = 3` and no accepting
acknowledgment on any attempt transmits the land command exactly 3 times,
consecutive transmissions separated by at least the 1.0 s per-attempt ack
wait (the source additionally sleeps `retry_delay = 2` between attempts),
and then returns `False` — no fourth transmission. -/
theorem land_retry_bound (acks : Nat → Option Control.CommandAck) (wait : Nat → ℚ)
    (hrej : ∀ i, i < 3 → Control.ackAccepted (acks i) = false)
    (hw : ∀ i, 0 ≤ wait i) :
    (Control.land acks wait 3 2).2 = false ∧
    ∃ t0 t1 t2 : ℚ, (Control.land acks wait 3 2).1 = [t0, t1, t2] ∧
      Control.LAND_ACK_TIMEOUT ≤ t1 - t0 ∧ Control.LAND_ACK_TIMEOUT ≤ t2 - t1 := by
  have h0 := hrej 0 (by norm_num)
  have h1 := hrej 1 (by norm_num)
  have h2 := hrej 2 (by norm_num)
  have hland : Control.land acks wait 3 2
      = ([0, wait 0 + 2, wait 0 + 2 + wait 1 + 2], false) := by
    show Control.landAux acks wait 2 3 0 0 [] = _
    rw [show (3 : Nat) = 1 + 1 + 1 from rfl]
    rw [landAux_step acks wait 2 1 0 0 [] h0]
    rw [show (1 : Nat) + 1 = 0 + 1 + 1 from rfl]
    rw [landAux_step acks wait 2 0 1 (0 + wait 0 + 2) ([] ++ [0]) h1]
    rw [landAux_succ]
    simp [h2]
  refine ⟨by rw [hland], 0, wait 0 + 2, wait 0 + 2 + wait 1 + 2, by rw [hland], ?_, ?_⟩
  · have := hw 0
    rw [show Control.LAND_ACK_TIMEOUT = 1 from rfl]
    linarith
  · have := hw 1
    rw [show Control.LAND_ACK_TIMEOUT = 1 from rfl]
    linarith

/-- Witness for C6: no ack ever arrives (each `recv_match` consumes the full
1.0 s timeout) — three transmissions, failure. -/
theorem land_retry_bound_witness :
    (Control.land (fun _ => none) (fun _ => 1) 3 2).2 = false ∧
    ∃ t0 t1 t2 : ℚ,
      (Control.land (fun _ => none) (fun _ => 1) 3 2).1 = [t0, t1, t2] ∧
      Control.LAND_ACK_TIMEOUT ≤ t1 - t0 ∧ Control.LAND_ACK_TIMEOUT ≤ t2 - t1 :=
  land_retry_bound (fun _ => none) (fun _ => 1)
    (fun _ _ => rfl) (fun _ => by norm_num)

/-- Claim C1 (counterexample): `_check_disconnections` at `now = 11` with
`timeout = 10` on a registry holding one session last heard at `t = 0` *pops*
the session — the registry afterwards has no entry for the peer at all, so the
session is not retained with `connected=false` as claimed; the popped record
travels only in the disconnect signal. -/
theorem sweep_deletes_session_cex :
    MavServer.lookupA
      (MavServer.check_disconnections
        [(0, MavServer.freshStatus 1 1 0 "HEARTBEAT")] 11 10).1 0 = none ∧
    (MavServer.check_disconnections
        [(0, MavServer.freshStatus 1 1 0 "HEARTBEAT")] 11 10).2.map
      (fun r => (r.addr, r.status.connected, r.status.connection_event))
      = [(0, false, "DISCONNECTED")] := by
  have hf : MavServer.timedOut 11 10 (MavServer.freshStatus 1 1 0 "HEARTBEAT") = true := by
    norm_num [MavServer.timedOut, MavServer.freshStatus]
  constructor
  · simp [MavServer.check_disconnections, hf, MavServer.lookupA]
  · simp [MavServer.check_disconnections, hf]

/-- Claim C1 (amended): the liveness sweep *removes* every timed-out session
from the server's registry (`self.drones.pop(addr)`, with its parser deleted
alongside); the popped record — not a retained registry entry — is marked
`connected=false` / `"DISCONNECTED"` and handed to the one emitted
disconnect signal. -/
theorem sweep_removes_timed_out_sessions
    (drones : List (Nat × MavServer.DroneStatus)) (now timeout : ℚ)
    (addr : Nat) (st : MavServer.DroneStatus)
    (hnd : (drones.map Prod.fst).Nodup)
    (hmem : MavServer.lookupA drones addr = some st)
    (hto : MavServer.timedOut now timeout st = true) :
    MavServer.lookupA (MavServer.check_disconnections drones now timeout).1 addr
      = none ∧
    (MavServer.DisconnectRecord.mk addr
        { st with connected := false, connection_event := "DISCONNECTED",
                  last_update := now })
      ∈ (MavServer.check_disconnections drones now timeout).2 := by
  have hkst : (addr, st) ∈ drones := lookupA_some_mem hmem
  constructor
  · rw [lookupA_eq_none_iff]
    intro p hp hpk
    have hpl := List.mem_filter.mp hp
    have hpq : p = (addr, st) := eq_of_mem_nodupkeys hnd hpl.1 hkst hpk
    rw [hpq] at hpl
    rw [hto] at hpl
    simp at hpl
  · have hfil : (addr, st) ∈ drones.filter
        (fun p => MavServer.timedOut now timeout p.2) :=
      List.mem_filter.mpr ⟨hkst, by simpa using hto⟩
    exact List.mem_map_of_mem _ hfil

/-- Witness for C1's amended statement: one session last heard at 0, swept at
`now = 11` with `timeout = 10`. -/
theorem sweep_removes_timed_out_sessions_witness :
    MavServer.lookupA
      (MavServer.check_disconnections
        [(0, MavServer.freshStatus 1 1 0 "HEARTBEAT")] 11 10).1 0 = none ∧
    (MavServer.DisconnectRecord.mk 0
        { MavServer.freshStatus 1 1 0 "HEARTBEAT" with
          connected := false, connection_event := "DISCONNECTED",
          last_update := 11 })
      ∈ (MavServer.check_disconnections
          [(0, MavServer.freshStatus 1 1 0 "HEARTBEAT")] 11 10).2 :=
  sweep_removes_timed_out_sessions
    [(0, MavServer.freshStatus 1 1 0 "HEARTBEAT")] 11 10 0
    (MavServer.freshStatus 1 1 0 "HEARTBEAT")
    (by decide) rfl
    (by norm_num [MavServer.timedOut, MavServer.freshStatus])

/-- Claim C4 (counterexample): with `touch` at `t = 0` and `timeout = 10`, a
query right at `t = 10` still reads `connected = true` — the sweep's test is
the strict `now - last_heartbeat > timeout`, so nothing is marked
disconnected at `t = 10`, contradicting the claim's "connected=false for
every query at t ≥ 10". -/
theorem liveness_boundary_cex :
    (MavServer.lookupA
      (MavServer.check_disconnections
        [(0, MavServer.freshStatus 1 1 0 "HEARTBEAT")] 10 10).1 0).map
      (fun s => s.connected) = some true ∧
    (MavServer.check_disconnections
      [(0, MavServer.freshStatus 1 1 0 "HEARTBEAT")] 10 10).2 = [] := by
  have hf : MavServer.timedOut 10 10 (MavServer.freshStatus 1 1 0 "HEARTBEAT") = false := by
    norm_num [MavServer.timedOut, MavServer.freshStatus]
  constructor
  · rw [show (MavServer.check_disconnections
        [(0, MavServer.freshStatus 1 1 0 "HEARTBEAT")] 10 10).1
        = [(0, MavServer.freshStatus 1 1 0 "HEARTBEAT")] from by
      simp [MavServer.check_disconnections, hf]]
    rfl
  · simp [MavServer.check_disconnections, hf]

/-- Claim C4 (amended): for a session last touched at `t = 0` with
`timeout = 10`, every sweep and query at `t ≤ 10` leaves the session in the
registry with `connected = true` and emits nothing; the first sweep at any
`t > 10` removes the session from the registry, emitting exactly one
DISCONNECTED record (marked `connected = false`); once removed, later sweeps
find no session and emit nothing more. -/
theorem liveness_boundary_amended (t t' : ℚ) (ht : t ≤ 10) (ht' : 10 < t') :
    (MavServer.check_disconnections
        [(0, MavServer.freshStatus 1 1 0 "HEARTBEAT")] t 10)
      = ([(0, MavServer.freshStatus 1 1 0 "HEARTBEAT")], []) ∧
    (MavServer.freshStatus 1 1 0 "HEARTBEAT").connected = true ∧
    ((MavServer.check_disconnections
        [(0, MavServer.freshStatus 1 1 0 "HEARTBEAT")] t' 10).1 = [] ∧
     (MavServer.check_disconnections
        [(0, MavServer.freshStatus 1 1 0 "HEARTBEAT")] t' 10).2.map
        (fun r => (r.addr, r.status.connected, r.status.connection_event))
        = [(0, false, "DISCONNECTED")]) ∧
    MavServer.check_disconnections ([] : List (Nat × MavServer.DroneStatus)) t' 10
      = ([], []) := by
  have hf : MavServer.timedOut t 10 (MavServer.freshStatus 1 1 0 "HEARTBEAT") = false := by
    simp only [MavServer.timedOut, MavServer.freshStatus, decide_eq_false_iff_not, not_lt]
    linarith
  have hf' : MavServer.timedOut t' 10 (MavServer.freshStatus 1 1 0 "HEARTBEAT") = true := by
    simp only [MavServer.timedOut, MavServer.freshStatus, decide_eq_true_eq]
    linarith
  refine ⟨?_, rfl, ⟨?_, ?_⟩, rfl⟩
  · simp [MavServer.check_disconnections, hf]
  · simp [MavServer.check_disconnections, hf']
  · simp [MavServer.check_disconnections, hf']

/-- Witness for C4's amended statement at `t = 10` (still connected) and
`t' = 11` (single DISCONNECTED record, session gone). -/
theorem liveness_boundary_amended_witness :
    (MavServer.check_disconnections
        [(0, MavServer.freshStatus 1 1 0 "HEARTBEAT")] 10 10)
      = ([(0, MavServer.freshStatus 1 1 0 "HEARTBEAT")], []) ∧
    (MavServer.freshStatus 1 1 0 "HEARTBEAT").connected = true ∧
    ((MavServer.check_disconnections
        [(0, MavServer.freshStatus 1 1 0 "HEARTBEAT")] 11 10).1 = [] ∧
     (MavServer.check_disconnections
        [(0, MavServer.freshStatus 1 1 0 "HEARTBEAT")] 11 10).2.map
        (fun r => (r.addr, r.status.connected, r.status.connection_event))
        = [(0, false, "DISCONNECTED")]) ∧
    MavServer.check_disconnections ([] : List (Nat × MavServer.DroneStatus)) 11 10
      = ([], []) :=
  liveness_boundary_amended 10 11 (by norm_num) (by norm_num)

/-- Witness for C5's amended statement: voltage 12587 mV, non-sentinel
current 250 cA, sentinel remaining −1. -/
theorem battery_sentinel_amended_witness :
    (MavServer.parse_sys_status (MavServer.freshStatus 1 1 0 "HEARTBEAT")
      12587 250 (-1)).battery_percent = -1 ∧
    (MavServer.parse_sys_status (MavServer.freshStatus 1 1 0 "HEARTBEAT")
      12587 250 (-1)).battery_current = ((250 : Int) : ℚ) / 100 ∧
    (Control.trackerStep Control.initTrackerStatus
      (MavServer.MavMsg.sysStatus 12587 250 (-1))).battery
      = some { percentage := -1, voltage := 12587 } := by
  have h := battery_sentinel_amended (MavServer.freshStatus 1 1 0 "HEARTBEAT")
    Control.initTrackerStatus 12587 250 (-1)
  exact ⟨h.1, h.2.2.2.1 (by decide), h.2.2.2.2⟩
